import Mathlib

/-!
Shallow embedding of the abacus hit-counter service (Go) and proofs about it.

The embedding covers:
* `utils/constants.go` — the TTL and identifier-length constants;
* the main package file — the `init` / `setupMockRedis` Redis-client
  configuration, `CreateRouter`'s route table and middleware chains, and the
  shutdown sequence at the end of `main`;
* spec-modelled components whose Go source is not part of the repository
  snapshot (the Counter Store's `hit` and the Key Validator), each marked
  `Modelled from the spec:` in its doc comment.

Go machine values are modelled as `Int` (`time.Duration` is an `Int` count of
nanoseconds, as in Go) and Go strings as Lean `String`s.
-/

namespace Abacus

/-! ### Go `time` durations (nanosecond counts, as in Go's `time.Duration`) -/

def Nanosecond : Int := 1

def Microsecond : Int := 1000 * Nanosecond

def Millisecond : Int := 1000 * Microsecond

def Second : Int := 1000 * Millisecond

def Minute : Int := 60 * Second

def Hour : Int := 60 * Minute

/-! ### `utils/constants.go` -/

/-- `const BaseTTLPeriod = time.Hour * 365 * 10 // 10 years` -/
def BaseTTLPeriod : Int := Hour * 365 * 10

/-- `const MinLength = 3` -/
def MinLength : Nat := 3

/-- `const MaxLength = 64` -/
def MaxLength : Nat := 64

/-! ### Environment model (`os.Getenv`) -/

/-- A process environment: an association list of variable names to values. -/
def Env := List (String × String)

/-- Go's `os.Getenv`: the value of the variable, or `""` when unset. -/
def getenv (env : Env) (k : String) : String :=
  match env.find? (fun p => p.1 = k) with
  | some p => p.2
  | none => ""

/-- Go's `strings.ToLower`, restricted to ASCII (the program only compares
against the ASCII literal "true", where Go's Unicode mapping agrees). -/
def asciiToLower (s : String) : String :=
  String.mk (s.data.map (fun c =>
    if 'A' ≤ c ∧ c ≤ 'Z' then Char.ofNat (c.toNat + 32) else c))

/-- Digit-run parsing shared by the signed and unsigned cases of `atoi`:
value and ok flag for a sign and the remaining characters. -/
def atoiCore (sg : Int) (cs : List Char) : Int × Bool :=
  if cs = [] then (0, false)
  else if cs.all (fun c => '0' ≤ c ∧ c ≤ '9') then
    (sg * (cs.foldl (fun n c => n * 10 + ((c.toNat : Int) - 48)) 0), true)
  else (0, false)

/-- Go's `strconv.Atoi`: returns the parsed value and an ok flag.  On a
syntax error (empty string, stray characters) Go returns `0` and a non-nil
error, modelled here as `(0, false)`. -/
def atoi (s : String) : Int × Bool :=
  match s.data with
  | '+' :: cs => atoiCore 1 cs
  | '-' :: cs => atoiCore (-1) cs
  | cs => atoiCore 1 cs

/-! ### Redis client configuration (`init` and `setupMockRedis`) -/

/-- The fields of `redis.Options` the program sets.  A field left unset in the
Go composite literal takes its zero value (`""` for strings, `0` for `DB`). -/
structure RedisOptions where
  addr : String
  username : String
  password : String
  db : Int
deriving DecidableEq, Repr

/-- The package-level state established by `init`: the two Redis clients, the
parsed `DbNum`, and whether the TESTING branch was taken. -/
structure InitState where
  client : RedisOptions
  rateLimitClient : RedisOptions
  dbNum : Int
  testing : Bool
deriving DecidableEq, Repr

/-- `setupMockRedis`: starts a miniredis instance (its address is the
parameter `mrAddr`) and connects both clients to it, each with only `Addr`
set — so both take the zero value `DB = 0`. -/
def setupMockRedis (mrAddr : String) : InitState :=
  { client := { addr := mrAddr, username := "", password := "", db := 0 },
    rateLimitClient := { addr := mrAddr, username := "", password := "", db := 0 },
    dbNum := 0,
    testing := true }

/-- The `init` function of the main package: in TESTING mode it delegates to
`setupMockRedis` and returns; otherwise it parses `REDIS_DB` with
`strconv.Atoi` (discarding the error) and builds the counter client on
database `DbNum` and the rate-limit client on database `DbNum + 1`. -/
def init (env : Env) (mrAddr : String) : InitState :=
  if asciiToLower (getenv env "TESTING") = "true" then
    setupMockRedis mrAddr
  else
    let addr := getenv env "REDIS_HOST" ++ ":" ++ getenv env "REDIS_PORT"
    let dbNum := (atoi (getenv env "REDIS_DB")).1
    { client :=
        { addr := addr,
          username := getenv env "REDIS_USERNAME",
          password := getenv env "REDIS_PASSWORD",
          db := dbNum },
      rateLimitClient :=
        { addr := addr,
          username := getenv env "REDIS_USERNAME",
          password := getenv env "REDIS_PASSWORD",
          db := dbNum + 1 },
      dbNum := dbNum,
      testing := false }

/-! ### `CreateRouter`: route table and middleware chains -/

/-- `const DocsUrl string = "http://localhost:8080/abacus/"` -/
def DocsUrl : String := "http://localhost:8080/abacus/"

/-- Go's `http.StatusPermanentRedirect`. -/
def StatusPermanentRedirect : Nat := 308

/-- Go's `http.StatusNotFound`. -/
def StatusNotFound : Nat := 404

/-- The middlewares the router installs, identified by the call that adds
them in `CreateRouter`. -/
inductive Middleware where
  | cors
  | recovery
  | analytics (key : String)
  | stats
  | rateLimit
  | sse
  | auth
deriving DecidableEq, Repr

/-- HTTP methods used by the route registrations. -/
inductive Method where
  | GET
  | POST
deriving DecidableEq, Repr

/-- One registered route: method, path pattern, the full middleware chain a
request to it passes through (engine-level, group-level and route-level, in
registration order), and the handler's name. -/
structure Route where
  method : Method
  path : String
  middlewares : List Middleware
  handler : String
deriving DecidableEq, Repr

/-- Engine-level middlewares: `r.Use(cors.New(...))`, `r.Use(gin.Recovery())`,
and `r.Use(analytics.Analytics(key))` when `API_ANALYTICS_ENABLED` is exactly
`"true"` (compared without lower-casing). -/
def engineMws (env : Env) : List Middleware :=
  [Middleware.cors, Middleware.recovery] ++
    (if getenv env "API_ANALYTICS_ENABLED" = "true" then
      [Middleware.analytics (getenv env "API_ANALYTICS_KEY")]
    else [])

/-- Chain of the `route := r.Group("")` group: the engine middlewares, then
`route.Use(middleware.Stats())`, then `route.Use(middleware.RateLimit(...))`
when `RATE_LIMIT_ENABLED` is exactly `"true"`. -/
def groupMws (env : Env) : List Middleware :=
  engineMws env ++ [Middleware.stats] ++
    (if getenv env "RATE_LIMIT_ENABLED" = "true" then [Middleware.rateLimit] else [])

/-- Chain of the `authorized := route.Group("")` group, which additionally
does `authorized.Use(middleware.Auth(Client))`. -/
def authMws (env : Env) : List Middleware :=
  groupMws env ++ [Middleware.auth]

/-- The routes registered by `CreateRouter`, in source order. -/
def routesList (env : Env) : List Route :=
  [{ method := Method.GET, path := "/favicon.svg", middlewares := engineMws env,
     handler := "StaticFile" },
   { method := Method.GET, path := "/favicon.ico", middlewares := engineMws env,
     handler := "StaticFile" },
   { method := Method.GET, path := "/healthcheck", middlewares := groupMws env,
     handler := "healthcheckHandler" },
   { method := Method.GET, path := "/docs", middlewares := groupMws env,
     handler := "docsRedirectHandler" },
   { method := Method.GET, path := "/stats", middlewares := groupMws env,
     handler := "StatsView" },
   { method := Method.GET, path := "/get/:namespace/*key", middlewares := groupMws env,
     handler := "GetView" },
   { method := Method.GET, path := "/hit/:namespace/*key", middlewares := groupMws env,
     handler := "HitView" },
   { method := Method.GET, path := "/stream/:namespace/*key",
     middlewares := groupMws env ++ [Middleware.sse], handler := "StreamValueView" },
   { method := Method.POST, path := "/create/:namespace/*key", middlewares := groupMws env,
     handler := "CreateView" },
   { method := Method.GET, path := "/create/:namespace/*key", middlewares := groupMws env,
     handler := "CreateView" },
   { method := Method.GET, path := "/create/", middlewares := groupMws env,
     handler := "CreateRandomView" },
   { method := Method.POST, path := "/create/", middlewares := groupMws env,
     handler := "CreateRandomView" },
   { method := Method.GET, path := "/info/:namespace/*key", middlewares := groupMws env,
     handler := "InfoView" },
   { method := Method.POST, path := "/delete/:namespace/*key", middlewares := authMws env,
     handler := "DeleteView" },
   { method := Method.POST, path := "/set/:namespace/*key", middlewares := authMws env,
     handler := "SetView" },
   { method := Method.POST, path := "/reset/:namespace/*key", middlewares := authMws env,
     handler := "ResetView" },
   { method := Method.POST, path := "/update/:namespace/*key", middlewares := authMws env,
     handler := "UpdateByView" }]

/-- The router built by `CreateRouter`: its engine and group middleware
chains (fixed at construction from the environment), the NoRoute response
(a permanent redirect to `DocsUrl`), and the route table. -/
structure Router where
  engineMiddlewares : List Middleware
  groupMiddlewares : List Middleware
  noRouteStatus : Nat
  noRouteLocation : String
  routes : List Route
deriving DecidableEq, Repr

/-- `CreateRouter`: builds the router once from the environment.  The feature
toggles `API_ANALYTICS_ENABLED` and `RATE_LIMIT_ENABLED` are consulted here,
during construction, and their effect is frozen into the middleware chains. -/
def CreateRouter (env : Env) : Router :=
  { engineMiddlewares := engineMws env,
    groupMiddlewares := groupMws env,
    noRouteStatus := StatusPermanentRedirect,
    noRouteLocation := DocsUrl,
    routes := routesList env }

/-! ### Shutdown sequence of `main` -/

/-- The externally visible steps `main` performs once a shutdown signal
arrives. -/
inductive MainEvent where
  | signalReceived
  | serverCloseClosed
  | shutdownInitiated (timeoutNs : Int)
  | serverExiting
deriving DecidableEq, Repr

/-- The straight-line tail of `main`: block on the signal channel (SIGINT /
SIGTERM), `close(utils.ServerClose)`, build a context with a 5-second
timeout and call `srv.Shutdown(ctx)`, then log "Server exiting". -/
def shutdownSequence : List MainEvent :=
  [MainEvent.signalReceived, MainEvent.serverCloseClosed,
   MainEvent.shutdownInitiated (5 * Second), MainEvent.serverExiting]

/-! ### Counter Store `hit` (spec-modelled) -/

/-- Modelled from the spec: the backing store owning counter state, a map
from `(namespace, key)` identity to the counter's value, absent keys having
none.  The Counter Store implementation is not part of the repository
snapshot under `src/`. -/
def Store : Type := String × String → Option Int

/-- The store with no counters. -/
def emptyStore : Store := fun _ => none

/-- Modelled from the spec: `hit(delta)` performed through the backing
store's atomic increment primitive (increment-or-create in one atomic step,
never a client-side read-modify-write): adds `delta` to the key's value,
creating the key with value `delta` when absent, and returns the new value. -/
def hit (st : Store) (k : String × String) (d : Int) : Store × Int :=
  match st k with
  | none => (fun k2 => if k2 = k then some d else st k2, d)
  | some v => (fun k2 => if k2 = k then some (v + d) else st k2, v + d)

/-- Executes a schedule of `hit` calls on one key.  Since each call is a
single atomic store operation, an interleaving of N concurrent callers is
exactly some permutation of their deltas executed in sequence. -/
def runHits (st : Store) (k : String × String) : List Int → Store
  | [] => st
  | d :: ds => runHits (hit st k d).1 k ds

/-! ### Key Validator (spec-modelled) -/

/-- The Key Validator's error taxonomy, from the spec. -/
inductive ValidationError where
  | TooShort
  | TooLong
  | InvalidCharacter
deriving DecidableEq, Repr

/-- Modelled from the spec: the validator's character allow-list — letters,
digits, and the separators `-`, `_`, `/` (identifiers are lower-cased before
this check, so letters are `a`-`z`).  The Key Validator implementation is
not part of the repository snapshot under `src/`. -/
def allowedChar (c : Char) : Bool :=
  ('a' ≤ c && c ≤ 'z') || ('0' ≤ c && c ≤ '9') || c == '-' || c == '_' || c == '/'

/-- ASCII whitespace, as recognized by Go's `unicode.IsSpace` on the ASCII
range identifiers use. -/
def isSpaceChar (c : Char) : Bool :=
  c == ' ' || c == '\t' || c == '\n' || c == '\r'

/-- Drops whitespace from both ends of a character list. -/
def trimChars (cs : List Char) : List Char :=
  ((cs.dropWhile isSpaceChar).reverse.dropWhile isSpaceChar).reverse

/-- Modelled from the spec: normalization — trim surrounding whitespace,
then lower-case (case-insensitive identity). -/
def normalize (s : String) : String :=
  asciiToLower (String.mk (trimChars s.data))

/-- Modelled from the spec: `validate(identifier)` normalizes, then fails
with `TooShort` / `TooLong` when the normalized length falls outside
`[MinLength, MaxLength]`, with `InvalidCharacter` on a character outside the
allow-list, and otherwise accepts the normalized identifier. -/
def validate (s : String) : Except ValidationError String :=
  if (normalize s).length < MinLength then Except.error ValidationError.TooShort
  else if (normalize s).length > MaxLength then Except.error ValidationError.TooLong
  else if (normalize s).data.all allowedChar then Except.ok (normalize s)
  else Except.error ValidationError.InvalidCharacter

end Abacus

namespace Abacus

/-! ### Theorems for claims C1, C2 and C10 -/

/-- C1: the claim states `BaseTTLPeriod` equals ten years, that is
`10 * 365 * 24` hours, and the code's own comment says "10 years"; but the
source defines `time.Hour * 365 * 10`, which is 3650 hours (about 152 days),
not 87600 hours.  The multiplication by 24 is missing. -/
theorem baseTTLPeriod_is_3650_hours_not_ten_years :
    BaseTTLPeriod = 3650 * Hour ∧ BaseTTLPeriod ≠ 10 * 365 * 24 * Hour := by
  constructor
  · decide
  · decide

/-- C2 counterexample: in the TESTING configuration, both the counter client
and the rate-limit client are connected to database 0 of the same miniredis
instance — their database slots coincide, refuting the claim that the slots
are disjoint in every configuration. -/
theorem testing_mode_clients_share_db_slot :
    (init [("TESTING", "true")] "127.0.0.1:6379").rateLimitClient.db =
      (init [("TESTING", "true")] "127.0.0.1:6379").client.db := by
  decide

/-- C2 amended: in every production (non-TESTING) configuration, the
rate-limit client's database slot is `DbNum + 1`, which differs from the
counter client's slot `DbNum`; in TESTING mode both clients share database 0
of the mock server. -/
theorem production_rate_limit_db_disjoint (env : Env) (mrAddr : String)
    (h : asciiToLower (getenv env "TESTING") ≠ "true") :
    (init env mrAddr).rateLimitClient.db = (init env mrAddr).client.db + 1 ∧
      (init env mrAddr).rateLimitClient.db ≠ (init env mrAddr).client.db := by
  unfold init
  rw [if_neg h]
  refine ⟨rfl, ?_⟩
  simp

/-- C2 amended, witness: a concrete production environment. -/
theorem production_rate_limit_db_disjoint_witness :
    (init [] "").rateLimitClient.db = (init [] "").client.db + 1 ∧
      (init [] "").rateLimitClient.db ≠ (init [] "").client.db :=
  production_rate_limit_db_disjoint [] "" (by decide)

/-- If the digit-run parser reports an error, the value it returned is 0. -/
theorem atoiCore_err (sg : Int) (cs : List Char) :
    (atoiCore sg cs).2 = false → (atoiCore sg cs).1 = 0 := by
  unfold atoiCore
  split
  · intro _; rfl
  · split
    · intro h; simp at h
    · intro _; rfl

/-- If `strconv.Atoi` reports an error, the value it returned is 0. -/
theorem atoi_err_val_zero (s : String) : (atoi s).2 = false → (atoi s).1 = 0 := by
  unfold atoi
  split
  · exact atoiCore_err _ _
  · exact atoiCore_err _ _
  · exact atoiCore_err _ _

/-- C10: in a production configuration where `REDIS_DB` is unset or not a
valid integer (`strconv.Atoi` errors), `init` discards the error with the
blank identifier, `DbNum` is 0, the counter client connects to database 0 and
the rate-limit client to database 1, and `init` completes normally. -/
theorem invalid_redis_db_defaults_to_zero (env : Env) (mrAddr : String)
    (hprod : asciiToLower (getenv env "TESTING") ≠ "true")
    (herr : (atoi (getenv env "REDIS_DB")).2 = false) :
    (init env mrAddr).dbNum = 0 ∧
      (init env mrAddr).client.db = 0 ∧
      (init env mrAddr).rateLimitClient.db = 1 := by
  have hz : (atoi (getenv env "REDIS_DB")).1 = 0 := atoi_err_val_zero _ herr
  unfold init
  rw [if_neg hprod]
  refine ⟨hz, hz, ?_⟩
  simp [hz]

/-- C10 witness: an environment with `REDIS_DB` unset (so `os.Getenv` yields
`""`, which `strconv.Atoi` rejects). -/
theorem invalid_redis_db_defaults_to_zero_witness :
    (init [("REDIS_HOST", "localhost"), ("REDIS_PORT", "6379")] "").dbNum = 0 ∧
      (init [("REDIS_HOST", "localhost"), ("REDIS_PORT", "6379")] "").client.db = 0 ∧
      (init [("REDIS_HOST", "localhost"), ("REDIS_PORT", "6379")] "").rateLimitClient.db = 1 :=
  invalid_redis_db_defaults_to_zero
    [("REDIS_HOST", "localhost"), ("REDIS_PORT", "6379")] "" (by decide) (by decide)

/-! ### Theorems for claims C3, C5, C6 and C9 -/

/-- C3: in the router built by `CreateRouter`, every route for the mutation
operations set, reset and delete carries `middleware.Auth` in its handler
chain — those routes are registered only inside the `authorized` group, so
an unauthenticated request never reaches their handlers. -/
theorem mutation_routes_have_auth (env : Env) (r : Route)
    (hr : r ∈ (CreateRouter env).routes)
    (hm : r.path = "/set/:namespace/*key" ∨ r.path = "/reset/:namespace/*key" ∨
      r.path = "/delete/:namespace/*key") :
    Middleware.auth ∈ r.middlewares := by
  simp only [CreateRouter, routesList, List.mem_cons, List.not_mem_nil, or_false] at hr
  rcases hr with rfl | rfl | rfl | rfl | rfl | rfl | rfl | rfl | rfl | rfl | rfl | rfl |
    rfl | rfl | rfl | rfl | rfl <;>
    simp_all [authMws]

/-- C3 witness: the set route of the router built in an empty environment. -/
theorem mutation_routes_have_auth_witness :
    Middleware.auth ∈
      (Route.mk Method.POST "/set/:namespace/*key" (authMws []) "SetView").middlewares :=
  mutation_routes_have_auth [] _ (by simp [CreateRouter, routesList]) (by simp)

/-- C5: `CreateRouter` registers, for each of the eight operations create,
hit, get, set, reset, delete, info and stream, a route parameterized by a
`:namespace` path segment and a `*key` path segment. -/
theorem router_registers_eight_operations (env : Env) (op : String)
    (hop : op ∈ ["create", "hit", "get", "set", "reset", "delete", "info", "stream"]) :
    ∃ r ∈ (CreateRouter env).routes, r.path = "/" ++ op ++ "/:namespace/*key" := by
  have mem : ∀ r ∈ routesList env, r ∈ (CreateRouter env).routes := by
    intro r h; exact h
  fin_cases hop
  · exact ⟨Route.mk Method.POST "/create/:namespace/*key" (groupMws env) "CreateView",
      by simp [CreateRouter, routesList], rfl⟩
  · exact ⟨Route.mk Method.GET "/hit/:namespace/*key" (groupMws env) "HitView",
      by simp [CreateRouter, routesList], rfl⟩
  · exact ⟨Route.mk Method.GET "/get/:namespace/*key" (groupMws env) "GetView",
      by simp [CreateRouter, routesList], rfl⟩
  · exact ⟨Route.mk Method.POST "/set/:namespace/*key" (authMws env) "SetView",
      by simp [CreateRouter, routesList], rfl⟩
  · exact ⟨Route.mk Method.POST "/reset/:namespace/*key" (authMws env) "ResetView",
      by simp [CreateRouter, routesList], rfl⟩
  · exact ⟨Route.mk Method.POST "/delete/:namespace/*key" (authMws env) "DeleteView",
      by simp [CreateRouter, routesList], rfl⟩
  · exact ⟨Route.mk Method.GET "/info/:namespace/*key" (groupMws env) "InfoView",
      by simp [CreateRouter, routesList], rfl⟩
  · exact ⟨Route.mk Method.GET "/stream/:namespace/*key" (groupMws env ++ [Middleware.sse])
      "StreamValueView", by simp [CreateRouter, routesList], rfl⟩

/-- C5 witness: the hit operation in an empty environment. -/
theorem router_registers_eight_operations_witness :
    ∃ r ∈ (CreateRouter []).routes, r.path = "/" ++ "hit" ++ "/:namespace/*key" :=
  router_registers_eight_operations [] "hit" (by simp)

/-- C6: the rate-limit middleware is in the route group's chain exactly when
`RATE_LIMIT_ENABLED` equals "true", and the analytics middleware is in the
engine chain exactly when `API_ANALYTICS_ENABLED` equals "true"; both
environment variables are consulted inside `CreateRouter`, so the chains are
frozen at router construction. -/
theorem feature_toggles_installed_iff (env : Env) :
    (Middleware.rateLimit ∈ (CreateRouter env).groupMiddlewares ↔
      getenv env "RATE_LIMIT_ENABLED" = "true") ∧
    ((∃ k, Middleware.analytics k ∈ (CreateRouter env).engineMiddlewares) ↔
      getenv env "API_ANALYTICS_ENABLED" = "true") := by
  by_cases h1 : getenv env "RATE_LIMIT_ENABLED" = "true" <;>
    by_cases h2 : getenv env "API_ANALYTICS_ENABLED" = "true" <;>
    simp [CreateRouter, groupMws, engineMws, h1, h2]

/-- C9: for a request matching no registered route, the router responds with
HTTP 308 (permanent redirect) to `DocsUrl` = "http://localhost:8080/abacus/",
never with a plain 404. -/
theorem noroute_redirects_to_docs (env : Env) :
    (CreateRouter env).noRouteStatus = StatusPermanentRedirect ∧
      (CreateRouter env).noRouteLocation = "http://localhost:8080/abacus/" ∧
      (CreateRouter env).noRouteStatus ≠ StatusNotFound :=
  ⟨rfl, rfl, by simp [CreateRouter, StatusPermanentRedirect, StatusNotFound]⟩

/-! ### Theorem for claim C8 -/

/-- C8: in the shutdown sequence of `main`, `close(utils.ServerClose)`
happens strictly before graceful shutdown is initiated, and the one shutdown
initiation carries a 5-second timeout. -/
theorem serverClose_closed_before_shutdown :
    shutdownSequence.indexOf MainEvent.serverCloseClosed <
        shutdownSequence.indexOf (MainEvent.shutdownInitiated (5 * Second)) ∧
      shutdownSequence.filterMap (fun e =>
        match e with
        | MainEvent.shutdownInitiated t => some t
        | _ => none) = [5 * Second] := by
  decide

/-! ### Theorems for claim C4 -/

/-- One `hit` moves the key's value from `v` (0 when absent) to `v + d`. -/
theorem hit_lookup (st : Store) (k : String × String) (d : Int) :
    (hit st k d).1 k = some ((st k).getD 0 + d) := by
  unfold hit
  cases h : st k <;> simp

/-- A nonempty schedule of hits on one key leaves the key at its prior value
plus the schedule's sum. -/
theorem runHits_lookup (k : String × String) (ds : List Int) :
    ∀ st : Store, ds ≠ [] → runHits st k ds k = some ((st k).getD 0 + ds.sum) := by
  induction ds with
  | nil => intro st h; exact absurd rfl h
  | cons d ds ih =>
    intro st _
    rcases Decidable.em (ds = []) with h | h
    · subst h
      show (hit st k d).1 k = _
      rw [hit_lookup]
      simp
    · show runHits (hit st k d).1 k ds k = _
      rw [ih (hit st k d).1 h, hit_lookup]
      simp only [Option.getD_some, List.sum_cons]
      ring_nf

/-- C4: for a fresh counter key, any interleaving of N concurrent `hit`
calls with deltas d1..dN — each call one atomic store increment, so an
interleaving is a permutation of the deltas — leaves the stored value equal
to the sum of the deltas. -/
theorem concurrent_hits_sum (k : String × String) (ds sched : List Int)
    (hperm : sched.Perm ds) (hne : ds ≠ []) :
    runHits emptyStore k sched k = some ds.sum := by
  have hne2 : sched ≠ [] := by
    intro h
    subst h
    exact hne (List.Perm.eq_nil hperm.symm)
  rw [runHits_lookup k sched emptyStore hne2, hperm.sum_eq]
  simp [emptyStore]

/-- C4 witness: deltas 1, 2, 3 executed in the interleaving 3, 1, 2. -/
theorem concurrent_hits_sum_witness :
    runHits emptyStore ("ns", "counter1") [3, 1, 2] ("ns", "counter1") =
      some (([1, 2, 3] : List Int).sum) :=
  concurrent_hits_sum ("ns", "counter1") [1, 2, 3] [3, 1, 2] (by decide) (by decide)

/-! ### Theorems for claim C7 -/

/-- C7: the validator's length bounds are `MinLength` = 3 and `MaxLength` =
64 (from `utils/constants.go`), and a namespace or key is accepted only when
its normalized length lies in [3, 64]. -/
theorem validate_accepts_only_in_bounds (s n : String)
    (h : validate s = Except.ok n) :
    MinLength = 3 ∧ MaxLength = 64 ∧ 3 ≤ n.length ∧ n.length ≤ 64 := by
  refine ⟨rfl, rfl, ?_⟩
  by_cases h1 : (normalize s).length < MinLength
  · rw [validate, if_pos h1] at h
    exact absurd h (by simp)
  · by_cases h2 : (normalize s).length > MaxLength
    · rw [validate, if_neg h1, if_pos h2] at h
      exact absurd h (by simp)
    · by_cases h3 : (normalize s).data.all allowedChar = true
      · rw [validate, if_neg h1, if_neg h2, if_pos h3] at h
        injection h with h4
        subst h4
        unfold MinLength at h1
        unfold MaxLength at h2
        omega
      · rw [validate, if_neg h1, if_neg h2, if_neg h3] at h
        exact absurd h (by simp)

/-- C7 witness: the identifier "abc" is accepted with normalized length 3. -/
theorem validate_accepts_only_in_bounds_witness :
    MinLength = 3 ∧ MaxLength = 64 ∧ 3 ≤ ("abc" : String).length ∧
      ("abc" : String).length ≤ 64 :=
  validate_accepts_only_in_bounds "abc" "abc" (by rfl)

end Abacus
